import Mathlib

/-!
Verification development for the emotional-TTS repository.

The development shallowly embeds the audio post-processing pipeline of
`CTTS.py` (`create_emotional_tts`, `load_speaker_genders`) and the retry
orchestration of `BTTS_gui.py` (`_generate_thread`).

Modelling conventions:
* Audio samples and control knobs are rational numbers (`ℚ`); the Python
  floating-point values 0.7, 1.2, ... are embedded as the rationals they
  denote, and the float32 cast in the source is value-preserving here.
* The external DSP routines `librosa.effects.pitch_shift` and
  `librosa.effects.time_stretch` are opaque oracles, bundled in `DSP`;
  an oracle returning `none` models the library call raising.
* Python exceptions are `Except Unit`; a `try/except: pass` around a call
  becomes `Option.getD` (keep the old buffer when the stage raises).
* Python strings are Lean `String`s, with the relevant `str` methods
  (`lower`, `upper`, `strip`, `split(",")`) re-implemented structurally
  (ASCII-faithful) so that everything evaluates.
-/

/-- Model of Python `str.lower()` (ASCII letters, as used by the labels). -/
def pyLower (s : String) : String := ⟨s.data.map Char.toLower⟩

/-- Model of Python `str.upper()` (ASCII letters, as used by speaker ids). -/
def pyUpper (s : String) : String := ⟨s.data.map Char.toUpper⟩

/-- Model of Python `str.strip()`: drop whitespace from both ends. -/
def pyStrip (s : String) : String :=
  ⟨((s.data.dropWhile Char.isWhitespace).reverse.dropWhile Char.isWhitespace).reverse⟩

/-- Helper for `pySplitComma`: accumulate the current field (reversed). -/
def splitCommaAux : List Char → List Char → List (List Char)
  | [], acc => [acc.reverse]
  | c :: rest, acc =>
      if c = ',' then acc.reverse :: splitCommaAux rest [] else splitCommaAux rest (c :: acc)

/-- Model of Python `str.split(",")`: split at every comma, keeping empty fields. -/
def pySplitComma (s : String) : List String := (splitCommaAux s.data []).map fun l => ⟨l⟩

/-- Model of Python `str.startswith(p)`. -/
def pyStartsWith (s p : String) : Bool := p.data.isPrefixOf s.data

/-- Model of Python `abs` on a float, here on `ℚ`. -/
def ratAbs (x : ℚ) : ℚ := if x < 0 then -x else x

/-- The two external `librosa.effects` routines used by the pipeline,
as opaque oracles.  `none` models the call raising an exception. -/
structure DSP where
  pitchShift : ℤ → List ℚ → Option (List ℚ)
  timeStretch : ℚ → List ℚ → Option (List ℚ)

/-- Embedding of the emotion branch chain of `create_emotional_tts`
(`CTTS.py` lines 108-181).  Input `audio` is the mono buffer, `sr` the
sample rate.  `.error ()` models an exception escaping the chain (only the
unguarded `pitch_shift` calls can raise one); a stage wrapped in
`try/except: pass` keeps the previous buffer via `Option.getD`. -/
def applyEmotionEffects (d : DSP) (emotion : String) (global_speed : ℚ) (sr : ℕ)
    (audio : List ℚ) : Except Unit (List ℚ) :=
  if pyLower emotion = "sad" then
    -- pitch_shift is inside try/except: a failure is swallowed
    let audio1 := (d.pitchShift (-3) audio).getD audio
    let audio2 :=
      if sr < audio1.length then
        let rate := 7/10 * global_speed
        if 1/100 < ratAbs (rate - 1) ∧ 0 < rate then
          (d.timeStretch rate audio1).getD audio1
        else audio1
      else audio1
    .ok (audio2.map fun x => x * (4/5))
  else if pyLower emotion = "happy" then
    -- pitch_shift is NOT wrapped: a failure propagates
    match d.pitchShift 2 audio with
    | none => .error ()
    | some audio1 =>
      let rate := 6/5 * global_speed
      let audio2 :=
        if sr < audio1.length ∧ 1/100 < ratAbs (rate - 1) ∧ 0 < rate then
          (d.timeStretch rate audio1).getD audio1
        else audio1
      .ok (audio2.map fun x => x * (11/10))
  else if pyLower emotion = "angry" then
    match d.pitchShift (-2) audio with
    | none => .error ()
    | some audio1 =>
      let rate := 11/10 * global_speed
      let audio2 :=
        if sr < audio1.length ∧ 1/100 < ratAbs (rate - 1) ∧ 0 < rate then
          (d.timeStretch rate audio1).getD audio1
        else audio1
      .ok (audio2.map fun x => x * (6/5))
  else if pyLower emotion = "calm" then
    match d.pitchShift (-1) audio with
    | none => .error ()
    | some audio1 =>
      let rate := 4/5 * global_speed
      let audio2 :=
        if sr < audio1.length ∧ 1/100 < ratAbs (rate - 1) ∧ 0 < rate then
          (d.timeStretch rate audio1).getD audio1
        else audio1
      .ok (audio2.map fun x => x * (9/10))
  else if pyLower emotion = "excited" then
    match d.pitchShift 3 audio with
    | none => .error ()
    | some audio1 =>
      let rate := 13/10 * global_speed
      let audio2 :=
        if sr < audio1.length ∧ 1/100 < ratAbs (rate - 1) ∧ 0 < rate then
          (d.timeStretch rate audio1).getD audio1
        else audio1
      .ok (audio2.map fun x => x * (23/20))
  else if pyLower emotion = "whisper" then
    match d.pitchShift (-1) audio with
    | none => .error ()
    | some audio1 => .ok (audio1.map fun x => x * (1/2))
  else
    -- neutral and any unrecognized label: no modification
    .ok audio

/-- The per-emotion parameter triple implemented by the branches of
`create_emotional_tts`: (pitch semitones, time-stretch multiplier, gain).
`none` means the branch has no such stage.  Expects an already
lower-cased label; unknown labels give the neutral (identity) triple. -/
def emotionProfile (e : String) : Option ℤ × Option ℚ × ℚ :=
  if e = "sad" then (some (-3), some (7/10), 4/5)
  else if e = "happy" then (some 2, some (6/5), 11/10)
  else if e = "angry" then (some (-2), some (11/10), 6/5)
  else if e = "calm" then (some (-1), some (4/5), 9/10)
  else if e = "excited" then (some 3, some (13/10), 23/20)
  else if e = "whisper" then (some (-1), none, 1/2)
  else (none, none, 1)

/-- Uniform restatement of one emotion branch: run the (optional) pitch
stage (`catchPitch` says whether its failure is swallowed, which the code
does only in the `sad` branch), then the (optional) guarded time-stretch
stage, then the gain.  `applyEmotionEffects` is proved equal to this. -/
def runProfile (d : DSP) (catchPitch : Bool) (p : Option ℤ) (m : Option ℚ) (g : ℚ)
    (global_speed : ℚ) (sr : ℕ) (audio : List ℚ) : Except Unit (List ℚ) :=
  let audio1? : Except Unit (List ℚ) :=
    match p with
    | none => .ok audio
    | some n =>
      match d.pitchShift n audio with
      | some b => .ok b
      | none => if catchPitch then .ok audio else .error ()
  match audio1? with
  | .error e => .error e
  | .ok audio1 =>
    let audio2 :=
      match m with
      | none => audio1
      | some mult =>
        let rate := mult * global_speed
        if sr < audio1.length ∧ 1/100 < ratAbs (rate - 1) ∧ 0 < rate then
          (d.timeStretch rate audio1).getD audio1
        else audio1
    .ok (audio2.map fun x => x * g)

/-- Model of `np.clip(x, -1.0, 1.0)` on one sample. -/
def clip1 (x : ℚ) : ℚ := if x < -1 then -1 else if 1 < x then 1 else x

/-- Mean of one row, `np.mean` over a single axis-1 slice
(division by zero on `ℚ` yields 0 for an empty row). -/
def rowMean (row : List ℚ) : ℚ := row.sum / (row.length : ℚ)

/-- Model of `np.mean(audio, axis=1)` on a 2-D array given as its list of
rows.  Under the layout `librosa.load` produces for multi-channel audio
(rows = channels, columns = sample positions) this averages each channel
over time. -/
def meanAxis1 (a : List (List ℚ)) : List ℚ := a.map rowMean

/-- The array `librosa.load` hands back: 1-D for mono, 2-D (channels ×
samples) for multi-channel audio. -/
inductive LoadedAudio where
  | mono (samples : List ℚ)
  | multi (channels : List (List ℚ))

/-- Embedding of `CTTS.py` lines 104-106: collapse a 2-D array with
`np.mean(audio, axis=1)`, leave a 1-D array alone. -/
def ensureMono : LoadedAudio → List ℚ
  | .mono s => s
  | .multi rows => meanAxis1 rows

/-- Modelled from the spec: the Data-Model/§8 reading of the mono
reduction — the sample at position `j` of the downmix is the arithmetic
mean of that sample position across all channels. -/
def channelMeanAt (channels : List (List ℚ)) (j : ℕ) : ℚ :=
  (channels.map fun ch => ch.getD j 0).sum / (channels.length : ℚ)

/-- Environment of one `create_emotional_tts` run: outcome of the
external steps (synthesis to the temp file, `librosa.load`, `sf.write`)
plus the DSP oracles. -/
structure SynthEnv where
  synthOk : Bool
  loaded : Option (LoadedAudio × ℕ)
  writeOk : Bool
  dsp : DSP

/-- Observable outcome of one `create_emotional_tts` run. -/
structure RunResult where
  outcome : Except Unit String
  handedToWriter : Option (List ℚ)
  tempRemains : Bool

/-- Embedding of the whole of `create_emotional_tts` (`CTTS.py` lines
40-202).  The temp file always exists right after creation; `tempRemains`
records whether it is still on disk when the function ends (the
`os.remove` calls themselves are modelled as succeeding).  Control flow:
a synthesis/load failure is caught, the temp file removed, and the
exception re-raised; an exception out of the effect chain or out of
`sf.write` propagates without reaching the final cleanup. -/
def create_emotional_tts (env : SynthEnv) (emotion : String) (output_file : String)
    (global_speed : ℚ) : RunResult :=
  if env.synthOk = false then
    { outcome := .error (), handedToWriter := none, tempRemains := false }
  else
    match env.loaded with
    | none => { outcome := .error (), handedToWriter := none, tempRemains := false }
    | some (raw, sr) =>
      let audio := ensureMono raw
      match applyEmotionEffects env.dsp emotion global_speed sr audio with
      | .error _ => { outcome := .error (), handedToWriter := none, tempRemains := true }
      | .ok fx =>
        -- lines 184-185: float32 cast (value-preserving here) then hard clip
        let final := fx.map clip1
        if env.writeOk then
          { outcome := .ok output_file, handedToWriter := some final, tempRemains := false }
        else
          { outcome := .error (), handedToWriter := some final, tempRemains := true }

/-- Modelled from the spec: the §4.1/§4.2 contract — pitch-shift by the
profile's semitones, then time-stretch at `multiplier × global_speed`
"applied only if resulting audio exceeds the sample rate in length and
the rate differs from 1.0 by more than 0.01", then the profile's gain. -/
def mapperSpec (d : DSP) (emotion : String) (global_speed : ℚ) (sr : ℕ)
    (audio : List ℚ) : List ℚ :=
  let prof := emotionProfile (pyLower emotion)
  let audio1 :=
    match prof.1 with
    | some n => (d.pitchShift n audio).getD audio
    | none => audio
  let audio2 :=
    match prof.2.1 with
    | some mult =>
      let rate := mult * global_speed
      if sr < audio1.length ∧ 1/100 < ratAbs (rate - 1) then
        (d.timeStretch rate audio1).getD audio1
      else audio1
    | none => audio1
  audio2.map fun x => x * prof.2.2

/-- The module-level `available_emotions` list of `CTTS.py`. -/
def available_emotions : List String :=
  ["sad", "happy", "angry", "calm", "excited", "whisper", "neutral"]

/-- Embedding of `load_speaker_genders` in `CTTS.py` (lines 12-34), one
parsed line at a time.  `i` is the raw line index (`enumerate`); a blank
line is skipped before the header test, the header is only recognized on
line 0, a line with fewer than two comma-fields or an empty id
contributes nothing, and a kept record is stored under the upper-cased
id with Python-dict (last assignment wins) semantics. -/
def processGenderLine (genders : List (String × String)) (i : ℕ) (rawLine : String) :
    List (String × String) :=
  let line := pyStrip rawLine
  if line = "" then genders
  else if i = 0 ∧ pyStartsWith (pyLower line) "id," = true then genders
  else
    match pySplitComma line with
    | sid :: g :: _ =>
      let sid := pyStrip sid
      let g := pyStrip g
      if sid ≠ "" then genders ++ [(pyUpper sid, g)] else genders
    | _ => genders

/-- The `for i, line in enumerate(f)` loop of `load_speaker_genders`. -/
def parseGenderLines : ℕ → List (String × String) → List String → List (String × String)
  | _, acc, [] => acc
  | i, acc, l :: ls => parseGenderLines (i + 1) (processGenderLine acc i l) ls

/-- `load_speaker_genders`: the file is `none` when missing
(`FileNotFoundError` is swallowed and the empty dict returned). -/
def load_speaker_genders : Option (List String) → List (String × String)
  | none => []
  | some lines => parseGenderLines 0 [] lines

/-- Model of Python `dict.get(key, default)` over the append-only
association list (the last binding for a key wins). -/
def pyDictGet (m : List (String × String)) (key dflt : String) : String :=
  match m.reverse.find? (fun p => p.1 = key) with
  | some p => p.2
  | none => dflt

/-- Embedding of the lookup in `CTTS.py` lines 271-272:
`genders_map.get(sp.strip().upper(), "unknown")`. -/
def speakerGenderOf (gm : List (String × String)) (sp : String) : String :=
  pyDictGet gm (pyUpper (pyStrip sp)) "unknown"

/-- One call to the `create_emotional_tts` entry point of `BTTS.PY`, as
issued by the GUI thread (the claim-relevant arguments; the
tremolo/reverb/brightness knobs are forwarded only on the primary call
and are not part of the retry contract). -/
structure GenCall where
  text : String
  emotion : String
  out : String
  modelName : String
  childMode : Bool
  globalSpeed : ℚ
  pitchShiftArg : ℚ
  energy : ℚ
deriving DecidableEq

/-- The arguments `_generate_thread` receives from `on_generate`. -/
structure ThreadArgs where
  text : String
  emotion : String
  out : String
  modelName : Option String
  childMode : Bool
  globalSpeed : ℚ
  pitchShiftArg : ℚ
  energy : ℚ
deriving DecidableEq

/-- `chosen_model` of `BTTS_gui.py` line 342. -/
def chosenModel (a : ThreadArgs) : String :=
  a.modelName.getD (if a.childMode then "C3Imaging/child_tts_fastpitch"
                    else "tts_models/en/vctk/vits")

/-- The primary `create_emotional_tts` call (`BTTS_gui.py` lines 346-362). -/
def primaryCall (a : ThreadArgs) : GenCall :=
  { text := a.text, emotion := a.emotion, out := a.out, modelName := chosenModel a,
    childMode := a.childMode, globalSpeed := a.globalSpeed,
    pitchShiftArg := a.pitchShiftArg, energy := a.energy }

/-- The fallback call (`BTTS_gui.py` lines 370-382): same text, emotion,
output, speed, pitch and energy, but the vctk/vits model and
`child_mode=True`. -/
def fallbackCall (a : ThreadArgs) : GenCall :=
  { primaryCall a with modelName := "tts_models/en/vctk/vits", childMode := true }

/-- Observable outcome of `_generate_thread`. -/
structure GenResult where
  attempts : List GenCall
  status : String
  errorDialog : Option (GenCall × GenCall)
  buttonReenabled : Bool
deriving DecidableEq

/-- Embedding of `_generate_thread` (`BTTS_gui.py` lines 337-388).  The
callee is an oracle `gen` telling which calls succeed.  `errorDialog`
records the messagebox shown after total failure, which carries the
tracebacks of both attempts; `buttonReenabled` is the `finally` block. -/
def generate_thread (gen : GenCall → Bool) (a : ThreadArgs) : GenResult :=
  let c1 := primaryCall a
  if gen c1 then
    { attempts := [c1], status := "Done. Saved to " ++ a.out,
      errorDialog := none, buttonReenabled := true }
  else
    let c2 := fallbackCall a
    if gen c2 then
      { attempts := [c1, c2], status := "Done with fallback. Saved to " ++ a.out,
        errorDialog := none, buttonReenabled := true }
    else
      { attempts := [c1, c2], status := "All generation attempts failed",
        errorDialog := some (c1, c2), buttonReenabled := true }

/-- Oracle pair: both librosa routines succeed and return the buffer
unchanged (pitch shifting and an identity stretch preserve samples). -/
def dspId : DSP := ⟨fun _ a => some a, fun _ a => some a⟩

/-- Oracle pair: identity pitch shift, but a time-stretch that returns an
empty buffer — a marker making any stretch invocation visible. -/
def dspStretchMarker : DSP := ⟨fun _ a => some a, fun _ _ => some []⟩

/-- Oracle pair: `pitch_shift` always raises, `time_stretch` is identity. -/
def dspPitchRaises : DSP := ⟨fun _ _ => none, fun _ a => some a⟩

theorem char_toLower_idem (c : Char) : Char.toLower (Char.toLower c) = Char.toLower c := by
  simp only [Char.toLower]
  by_cases h : c.toNat ≥ 65 ∧ c.toNat ≤ 90
  · rw [if_pos h]
    have hv : Nat.isValidChar (c.toNat + 32) := Or.inl (by omega)
    have hval : (Char.ofNat (c.toNat + 32)).toNat = c.toNat + 32 := by
      rw [Char.ofNat, dif_pos hv]; rfl
    rw [if_neg (by rw [hval]; omega)]
  · rw [if_neg h, if_neg h]

theorem pyLower_idem (s : String) : pyLower (pyLower s) = pyLower s := by
  simp only [pyLower, List.map_map]
  congr 1
  apply List.map_congr_left
  intro c _
  exact char_toLower_idem c

theorem ite_nested_and {α : Type} (A B : Prop) [Decidable A] [Decidable B] (x y : α) :
    (if A then (if B then x else y) else y) = if A ∧ B then x else y := by
  split_ifs <;> first | rfl | tauto

theorem applyEffects_sad (d : DSP) (e : String) (gs : ℚ) (sr : ℕ) (a : List ℚ)
    (h : pyLower e = "sad") :
    applyEmotionEffects d e gs sr a =
      runProfile d true (some (-3)) (some (7/10)) (4/5) gs sr a := by
  unfold applyEmotionEffects runProfile
  rw [if_pos h]
  cases hp : d.pitchShift (-3) a <;> simp [hp] <;> rw [ite_nested_and]

theorem applyEffects_happy (d : DSP) (e : String) (gs : ℚ) (sr : ℕ) (a : List ℚ)
    (h : pyLower e = "happy") :
    applyEmotionEffects d e gs sr a =
      runProfile d false (some 2) (some (6/5)) (11/10) gs sr a := by
  have hs : pyLower e ≠ "sad" := by rw [h]; decide
  unfold applyEmotionEffects runProfile
  rw [if_neg hs, if_pos h]
  cases hp : d.pitchShift 2 a <;> simp [hp]

theorem applyEffects_angry (d : DSP) (e : String) (gs : ℚ) (sr : ℕ) (a : List ℚ)
    (h : pyLower e = "angry") :
    applyEmotionEffects d e gs sr a =
      runProfile d false (some (-2)) (some (11/10)) (6/5) gs sr a := by
  have h1 : pyLower e ≠ "sad" := by rw [h]; decide
  have h2 : pyLower e ≠ "happy" := by rw [h]; decide
  unfold applyEmotionEffects runProfile
  rw [if_neg h1, if_neg h2, if_pos h]
  cases hp : d.pitchShift (-2) a <;> simp [hp]

theorem applyEffects_calm (d : DSP) (e : String) (gs : ℚ) (sr : ℕ) (a : List ℚ)
    (h : pyLower e = "calm") :
    applyEmotionEffects d e gs sr a =
      runProfile d false (some (-1)) (some (4/5)) (9/10) gs sr a := by
  have h1 : pyLower e ≠ "sad" := by rw [h]; decide
  have h2 : pyLower e ≠ "happy" := by rw [h]; decide
  have h3 : pyLower e ≠ "angry" := by rw [h]; decide
  unfold applyEmotionEffects runProfile
  rw [if_neg h1, if_neg h2, if_neg h3, if_pos h]
  cases hp : d.pitchShift (-1) a <;> simp [hp]

theorem applyEffects_excited (d : DSP) (e : String) (gs : ℚ) (sr : ℕ) (a : List ℚ)
    (h : pyLower e = "excited") :
    applyEmotionEffects d e gs sr a =
      runProfile d false (some 3) (some (13/10)) (23/20) gs sr a := by
  have h1 : pyLower e ≠ "sad" := by rw [h]; decide
  have h2 : pyLower e ≠ "happy" := by rw [h]; decide
  have h3 : pyLower e ≠ "angry" := by rw [h]; decide
  have h4 : pyLower e ≠ "calm" := by rw [h]; decide
  unfold applyEmotionEffects runProfile
  rw [if_neg h1, if_neg h2, if_neg h3, if_neg h4, if_pos h]
  cases hp : d.pitchShift 3 a <;> simp [hp]

theorem applyEffects_whisper (d : DSP) (e : String) (gs : ℚ) (sr : ℕ) (a : List ℚ)
    (h : pyLower e = "whisper") :
    applyEmotionEffects d e gs sr a =
      runProfile d false (some (-1)) none (1/2) gs sr a := by
  have h1 : pyLower e ≠ "sad" := by rw [h]; decide
  have h2 : pyLower e ≠ "happy" := by rw [h]; decide
  have h3 : pyLower e ≠ "angry" := by rw [h]; decide
  have h4 : pyLower e ≠ "calm" := by rw [h]; decide
  have h5 : pyLower e ≠ "excited" := by rw [h]; decide
  unfold applyEmotionEffects runProfile
  rw [if_neg h1, if_neg h2, if_neg h3, if_neg h4, if_neg h5, if_pos h]
  cases hp : d.pitchShift (-1) a <;> simp [hp]

theorem applyEffects_other (d : DSP) (e : String) (gs : ℚ) (sr : ℕ) (a : List ℚ)
    (h1 : pyLower e ≠ "sad") (h2 : pyLower e ≠ "happy") (h3 : pyLower e ≠ "angry")
    (h4 : pyLower e ≠ "calm") (h5 : pyLower e ≠ "excited") (h6 : pyLower e ≠ "whisper") :
    applyEmotionEffects d e gs sr a = .ok a := by
  unfold applyEmotionEffects
  rw [if_neg h1, if_neg h2, if_neg h3, if_neg h4, if_neg h5, if_neg h6]

/-- Every emotion branch of `create_emotional_tts` is an instance of the
uniform `runProfile` pipeline at its `emotionProfile` triple, with the
pitch failure swallowed exactly in the `sad` branch. -/
theorem applyEffects_eq_runProfile (d : DSP) (e : String) (gs : ℚ) (sr : ℕ) (a : List ℚ) :
    applyEmotionEffects d e gs sr a =
      runProfile d (decide (pyLower e = "sad")) (emotionProfile (pyLower e)).1
        (emotionProfile (pyLower e)).2.1 (emotionProfile (pyLower e)).2.2 gs sr a := by
  by_cases h1 : pyLower e = "sad"
  · rw [applyEffects_sad d e gs sr a h1, h1]; rfl
  · by_cases h2 : pyLower e = "happy"
    · rw [applyEffects_happy d e gs sr a h2, h2]; rfl
    · by_cases h3 : pyLower e = "angry"
      · rw [applyEffects_angry d e gs sr a h3, h3]; rfl
      · by_cases h4 : pyLower e = "calm"
        · rw [applyEffects_calm d e gs sr a h4, h4]; rfl
        · by_cases h5 : pyLower e = "excited"
          · rw [applyEffects_excited d e gs sr a h5, h5]; rfl
          · by_cases h6 : pyLower e = "whisper"
            · rw [applyEffects_whisper d e gs sr a h6, h6]; rfl
            · have hprof : emotionProfile (pyLower e) = (none, none, 1) := by
                unfold emotionProfile
                rw [if_neg h1, if_neg h2, if_neg h3, if_neg h4, if_neg h5, if_neg h6]
              rw [applyEffects_other d e gs sr a h1 h2 h3 h4 h5 h6, hprof,
                decide_eq_false h1]
              unfold runProfile
              simp

/-- Every time-stretch multiplier in the emotion table is positive. -/
theorem emotionProfile_stretch_pos (s : String) (m : ℚ)
    (h : (emotionProfile s).2.1 = some m) : 0 < m := by
  unfold emotionProfile at h
  split_ifs at h <;> simp_all <;> norm_num [← h]

/-- C1: for every emotion label in any casing, the effect chain applies
exactly the §4.1 pitch/stretch-rate/gain triple of its lower-cased label,
in the order pitch-shift, guarded time-stretch, gain (`mapperSpec` is the
spec-side chain), and processing a label equals processing its lower-cased
form.  Hypotheses: the pitch oracle does not raise (so the unguarded
branches run to completion) and the global speed is positive (for
non-positive speeds the code skips the stretch even when the spec's
two-condition guard holds; that divergence is the subject of C4/C10). -/
theorem emotion_mapper_matches_spec (d : DSP) (e : String) (gs : ℚ) (sr : ℕ)
    (a : List ℚ) (hp : ∀ n x, (d.pitchShift n x).isSome = true) (hgs : 0 < gs) :
    applyEmotionEffects d e gs sr a = .ok (mapperSpec d e gs sr a) ∧
    applyEmotionEffects d e gs sr a = applyEmotionEffects d (pyLower e) gs sr a := by
  constructor
  · rw [applyEffects_eq_runProfile]
    unfold runProfile mapperSpec
    rcases hmp : emotionProfile (pyLower e) with ⟨p, m, g⟩
    have hrate : ∀ mult : ℚ, m = some mult → 0 < mult * gs := by
      intro mult hmm
      refine mul_pos (emotionProfile_stretch_pos (pyLower e) mult ?_) hgs
      rw [hmp, hmm]
    simp only [hmp]
    clear hmp
    cases p with
    | none =>
      cases m with
      | none => rfl
      | some mult =>
        have hiff : ∀ (len : ℕ),
            (sr < len ∧ 1/100 < ratAbs (mult * gs - 1) ∧ 0 < mult * gs) ↔
              (sr < len ∧ 1/100 < ratAbs (mult * gs - 1)) := by
          intro len
          constructor
          · rintro ⟨x, y, _⟩; exact ⟨x, y⟩
          · rintro ⟨x, y⟩; exact ⟨x, y, hrate mult rfl⟩
        simp only [hiff]
    | some n =>
      rcases Option.isSome_iff_exists.mp (hp n a) with ⟨b, hb⟩
      simp only [hb, Option.getD_some]
      cases m with
      | none => rfl
      | some mult =>
        have hiff : ∀ (len : ℕ),
            (sr < len ∧ 1/100 < ratAbs (mult * gs - 1) ∧ 0 < mult * gs) ↔
              (sr < len ∧ 1/100 < ratAbs (mult * gs - 1)) := by
          intro len
          constructor
          · rintro ⟨x, y, _⟩; exact ⟨x, y⟩
          · rintro ⟨x, y⟩; exact ⟨x, y, hrate mult rfl⟩
        simp only [hiff]
  · have hll : pyLower (pyLower e) = pyLower e := pyLower_idem e
    simp only [applyEmotionEffects, hll]

/-- Witness for C1 at a concrete mixed-case label with a total oracle. -/
theorem emotion_mapper_matches_spec_witness :
    (∀ n x, (dspId.pitchShift n x).isSome = true) ∧ (0 : ℚ) < 1 ∧
    (applyEmotionEffects dspId "Happy" 1 0 [1] =
        .ok (mapperSpec dspId "Happy" 1 0 [1]) ∧
      applyEmotionEffects dspId "Happy" 1 0 [1] =
        applyEmotionEffects dspId (pyLower "Happy") 1 0 [1]) :=
  ⟨fun _ _ => rfl, by decide,
    emotion_mapper_matches_spec dspId "Happy" 1 0 [1] (fun _ _ => rfl) (by decide)⟩

/-- C2 (amended): a failing time-stretch never escapes (any `timeStretch`
oracle, including an always-raising one, still yields `.ok`), and a
failing pitch-shift is caught in the `sad` branch; but in the other
branches the pitch-shift call is unguarded, so the blanket claim needs
the hypothesis that either the label is `sad` (any casing) or the pitch
oracle does not raise.  The gain stage is a plain multiplication and
cannot raise. -/
theorem stage_failures_contained (d : DSP) (e : String) (gs : ℚ) (sr : ℕ) (a : List ℚ)
    (h : pyLower e = "sad" ∨ ∀ n x, (d.pitchShift n x).isSome = true) :
    ∃ out, applyEmotionEffects d e gs sr a = .ok out := by
  rw [applyEffects_eq_runProfile]
  unfold runProfile
  cases hq : (emotionProfile (pyLower e)).1 with
  | none => simp only [hq]; exact ⟨_, rfl⟩
  | some n =>
    cases hps : d.pitchShift n a with
    | some b => simp only [hq, hps]; exact ⟨_, rfl⟩
    | none =>
      rcases h with h | h
      · simp only [hq, hps, h]
        simp
      · have hcontra := h n a
        rw [hps] at hcontra
        simp at hcontra

/-- Witness for C2 (amended): the sad branch absorbs even an
always-raising pitch oracle. -/
theorem stage_failures_contained_witness :
    (pyLower "SAD" = "sad" ∨ ∀ n x, (dspPitchRaises.pitchShift n x).isSome = true) ∧
    ∃ out, applyEmotionEffects dspPitchRaises "SAD" 1 0 [1] = .ok out :=
  ⟨Or.inl (by decide),
    stage_failures_contained dspPitchRaises "SAD" 1 0 [1] (Or.inl (by decide))⟩

/-- Counterexample to C2 as stated: in the `happy` branch the
pitch-shift stage is not wrapped in `try/except`, so a single-stage
failure escapes `create_emotional_tts` (outcome is an exception). -/
theorem pitch_exception_escapes :
    applyEmotionEffects dspPitchRaises "happy" 1 0 [1] = .error () ∧
    (create_emotional_tts ⟨true, some (.mono [1], 0), true, dspPitchRaises⟩
        "happy" "o.wav" 1).outcome = .error () := by
  constructor <;> rfl

/-- Every clipped sample lies in `[-1, 1]`. -/
theorem clip1_bounds (x : ℚ) : -1 ≤ clip1 x ∧ clip1 x ≤ 1 := by
  unfold clip1
  split_ifs with h1 h2
  · constructor <;> norm_num
  · constructor <;> norm_num
  · exact ⟨le_of_not_lt h1, le_of_not_lt h2⟩

/-- C3: whatever the input waveform, emotion and oracles, any buffer that
`create_emotional_tts` hands to the output writer has every sample
hard-clipped into `[-1, 1]` (the float32 cast of the source is
value-preserving in this rational model). -/
theorem written_buffer_clipped (env : SynthEnv) (e out : String) (gs : ℚ)
    (buf : List ℚ) (h : (create_emotional_tts env e out gs).handedToWriter = some buf) :
    ∀ x ∈ buf, -1 ≤ x ∧ x ≤ 1 := by
  obtain ⟨sOk, loaded, wOk, dd⟩ := env
  unfold create_emotional_tts at h
  cases sOk with
  | false => simp at h
  | true =>
    rw [if_neg (by simp)] at h
    cases loaded with
    | none => simp at h
    | some pr =>
      obtain ⟨raw, sr⟩ := pr
      dsimp only at h
      cases hfx : applyEmotionEffects dd e gs sr (ensureMono raw) with
      | error u => rw [hfx] at h; simp at h
      | ok fx =>
        rw [hfx] at h
        have hbuf : List.map clip1 fx = buf := by
          cases wOk with
          | true => dsimp only at h; exact Option.some.inj h
          | false => dsimp only at h; exact Option.some.inj h
        subst hbuf
        intro x hx
        rcases List.mem_map.mp hx with ⟨y, -, rfl⟩
        exact clip1_bounds y

/-- Environment for the C3 witness: a one-sample waveform with value 2,
processed neutrally, so the clip is visible (2 becomes 1). -/
def envNeutral : SynthEnv := ⟨true, some (.mono [2], 5), true, dspId⟩

/-- Witness for C3 at a concrete over-range sample. -/
theorem written_buffer_clipped_witness :
    (create_emotional_tts envNeutral "neutral" "o.wav" 1).handedToWriter = some [1] ∧
    ∀ x ∈ ([1] : List ℚ), -1 ≤ x ∧ x ≤ 1 :=
  ⟨by decide, written_buffer_clipped envNeutral "neutral" "o.wav" 1 [1] (by decide)⟩

/-- C4 (amended): in every branch with a time-stretch stage, the stretch
is applied iff the buffer exceeds one second (`sr < len`) AND
`|rate - 1| > 0.01` AND additionally `rate > 0`; when the guard fails the
stage leaves the buffer length unchanged.  The pitch oracle is taken to
be the identity so that the stretch stage is observed in isolation. -/
theorem stretch_guard_characterization (d : DSP) (e : String) (gs : ℚ) (sr : ℕ)
    (a : List ℚ) (p : Option ℤ) (mult g : ℚ)
    (hprof : emotionProfile (pyLower e) = (p, some mult, g))
    (hid : ∀ n x, d.pitchShift n x = some x) :
    applyEmotionEffects d e gs sr a =
      .ok ((if sr < a.length ∧ 1/100 < ratAbs (mult * gs - 1) ∧ 0 < mult * gs then
              (d.timeStretch (mult * gs) a).getD a
            else a).map fun x => x * g) ∧
    (¬(sr < a.length ∧ 1/100 < ratAbs (mult * gs - 1) ∧ 0 < mult * gs) →
      ∃ out, applyEmotionEffects d e gs sr a = .ok out ∧ out.length = a.length) := by
  have h1 : applyEmotionEffects d e gs sr a =
      .ok ((if sr < a.length ∧ 1/100 < ratAbs (mult * gs - 1) ∧ 0 < mult * gs then
              (d.timeStretch (mult * gs) a).getD a
            else a).map fun x => x * g) := by
    rw [applyEffects_eq_runProfile]
    simp only [hprof]
    unfold runProfile
    cases p with
    | none => rfl
    | some n => simp only [hid n a]
  refine ⟨h1, fun hng => ⟨a.map fun x => x * g, ?_, by rw [List.length_map]⟩⟩
  rw [h1, if_neg hng]

/-- Witness for C4 (amended) at the sad profile with unit speed. -/
theorem stretch_guard_characterization_witness :
    emotionProfile (pyLower "sad") = (some (-3), some (7/10), 4/5) ∧
    (∀ n x, dspId.pitchShift n x = some x) ∧
    applyEmotionEffects dspId "sad" 1 0 [] =
      .ok ((if 0 < ([] : List ℚ).length ∧ 1/100 < ratAbs (7/10 * 1 - 1) ∧ 0 < 7/10 * 1 then
              (dspId.timeStretch (7/10 * 1) []).getD []
            else ([] : List ℚ)).map fun x => x * (4/5)) :=
  ⟨rfl, fun _ _ => rfl,
    (stretch_guard_characterization dspId "sad" 1 0 [] (some (-3)) (7/10) (4/5) rfl
      (fun _ _ => rfl)).1⟩

/-- Counterexample to C4 as stated: emotion `sad`, `global_speed = -1`,
`sr = 1`, a two-sample buffer.  Both conditions of the claimed iff hold
(the buffer exceeds one second and the rate −0.7 deviates from 1 by more
than 0.01), yet the stretch oracle — which would return the empty list —
is not invoked: the code's additional `rate > 0` test blocks it, and the
output keeps length 2. -/
theorem stretch_guard_claim_false :
    (1 < ([1, 1] : List ℚ).length ∧ 1/100 < ratAbs (7/10 * (-1) - 1)) ∧
    (∀ r x, dspStretchMarker.timeStretch r x = some []) ∧
    applyEmotionEffects dspStretchMarker "sad" (-1) 1 [1, 1] = .ok [4/5, 4/5] ∧
    ([4/5, 4/5] : List ℚ) ≠ [] := by
  have habs : ratAbs (7/10 * (-1) - 1) = 17/10 := by
    rw [ratAbs, if_pos (by norm_num : (7/10 * (-1) - 1 : ℚ) < 0)]
    norm_num
  refine ⟨⟨by decide, by rw [habs]; norm_num⟩, fun _ _ => rfl, ?_, by simp⟩
  rw [applyEffects_sad dspStretchMarker "sad" (-1) 1 [1, 1] (by decide)]
  unfold runProfile
  simp only [dspStretchMarker, habs]
  rw [if_neg (by rintro ⟨-, -, h3⟩; norm_num at h3)]
  norm_num

/-- C5: an unrecognized emotion label (any casing) takes the neutral
fall-through branch: output equals the `"neutral"` output, and equals the
input buffer (no pitch, stretch or gain stage runs). -/
theorem unknown_label_acts_neutral (d : DSP) (e : String) (gs : ℚ) (sr : ℕ)
    (a : List ℚ) (h : pyLower e ∉ available_emotions) :
    applyEmotionEffects d e gs sr a = applyEmotionEffects d "neutral" gs sr a ∧
    applyEmotionEffects d e gs sr a = .ok a := by
  have h1 : pyLower e ≠ "sad" := fun hh => h (by rw [hh]; decide)
  have h2 : pyLower e ≠ "happy" := fun hh => h (by rw [hh]; decide)
  have h3 : pyLower e ≠ "angry" := fun hh => h (by rw [hh]; decide)
  have h4 : pyLower e ≠ "calm" := fun hh => h (by rw [hh]; decide)
  have h5 : pyLower e ≠ "excited" := fun hh => h (by rw [hh]; decide)
  have h6 : pyLower e ≠ "whisper" := fun hh => h (by rw [hh]; decide)
  have hres := applyEffects_other d e gs sr a h1 h2 h3 h4 h5 h6
  have hneut : applyEmotionEffects d "neutral" gs sr a = .ok a :=
    applyEffects_other d "neutral" gs sr a (by decide) (by decide) (by decide)
      (by decide) (by decide) (by decide)
  exact ⟨hres.trans hneut.symm, hres⟩

/-- Witness for C5 at the spec's own example label `"furious"`. -/
theorem unknown_label_acts_neutral_witness :
    pyLower "furious" ∉ available_emotions ∧
    (applyEmotionEffects dspId "furious" 1 0 [1] =
        applyEmotionEffects dspId "neutral" 1 0 [1] ∧
      applyEmotionEffects dspId "furious" 1 0 [1] = .ok [1]) :=
  ⟨by decide, unknown_label_acts_neutral dspId "furious" 1 0 [1] (by decide)⟩

/-- C6 (amended): the temporary file is removed on success and when
synthesis or loading fails (the `except` block removes it before
re-raising), but it survives exactly the runs in which synthesis and
loading succeeded and then either the effect chain raised or the final
write raised — on those failure paths no cleanup runs. -/
theorem temp_file_cleanup_characterization (env : SynthEnv) (e out : String) (gs : ℚ) :
    (create_emotional_tts env e out gs).tempRemains = true ↔
      ∃ raw sr, env.synthOk = true ∧ env.loaded = some (raw, sr) ∧
        (applyEmotionEffects env.dsp e gs sr (ensureMono raw) = .error () ∨
          env.writeOk = false) := by
  obtain ⟨sOk, loaded, wOk, dd⟩ := env
  unfold create_emotional_tts
  cases sOk with
  | false => simp
  | true =>
    rw [if_neg (by simp)]
    cases loaded with
    | none => simp
    | some pr =>
      obtain ⟨raw, sr⟩ := pr
      dsimp only
      cases hfx : applyEmotionEffects dd e gs sr (ensureMono raw) with
      | error u =>
        cases u
        simp only [hfx]
        simp
        exact ⟨raw, sr, ⟨rfl, rfl⟩, Or.inl hfx⟩
      | ok fx =>
        cases wOk with
        | true => simp [hfx]
        | false => simp [hfx]

/-- Counterexample to C6 as stated: synthesis and load succeed, then the
unguarded pitch stage of the `happy` branch raises; the exception
propagates and the temporary file is NOT removed on this failure path. -/
theorem temp_file_leak :
    (create_emotional_tts ⟨true, some (.mono [1], 0), true, dspPitchRaises⟩
        "happy" "o.wav" 1).outcome = .error () ∧
    (create_emotional_tts ⟨true, some (.mono [1], 0), true, dspPitchRaises⟩
        "happy" "o.wav" 1).tempRemains = true := by
  constructor <;> rfl

/-- C7: when the primary generation call fails, `_generate_thread` makes
exactly one retry — against `tts_models/en/vctk/vits` with `child_mode`
forced `true` and the same text, emotion, pitch-shift and energy — and
when the fallback also fails it shows a dialog carrying both attempts'
diagnostics; there is no third attempt (the attempt list has length 2),
and on fallback success the reported path is the requested one. -/
theorem retry_once_with_fallback (gen : GenCall → Bool) (a : ThreadArgs)
    (hfail : gen (primaryCall a) = false) :
    (generate_thread gen a).attempts = [primaryCall a, fallbackCall a] ∧
    (fallbackCall a).modelName = "tts_models/en/vctk/vits" ∧
    (fallbackCall a).childMode = true ∧
    (fallbackCall a).text = a.text ∧
    (fallbackCall a).emotion = a.emotion ∧
    (fallbackCall a).pitchShiftArg = a.pitchShiftArg ∧
    (fallbackCall a).energy = a.energy ∧
    (gen (fallbackCall a) = true →
      (generate_thread gen a).status = "Done with fallback. Saved to " ++ a.out ∧
      (generate_thread gen a).errorDialog = none) ∧
    (gen (fallbackCall a) = false →
      (generate_thread gen a).errorDialog = some (primaryCall a, fallbackCall a) ∧
      (generate_thread gen a).status = "All generation attempts failed") := by
  unfold generate_thread
  simp only [hfail]
  cases hf2 : gen (fallbackCall a) <;>
    simp [hfail, hf2, fallbackCall, primaryCall]

/-- Oracle for the C7 witness: only the vctk/vits model succeeds. -/
def genOnlyVctk : GenCall → Bool :=
  fun c => decide (c.modelName = "tts_models/en/vctk/vits")

/-- Arguments for the C7 witness: child mode on, no explicit model, so
the primary attempt targets the child model and fails. -/
def argsChild : ThreadArgs :=
  { text := "hi", emotion := "happy", out := "o.wav", modelName := none,
    childMode := true, globalSpeed := 1, pitchShiftArg := 0, energy := 1 }

/-- Witness for C7: primary fails, and the attempt list is exactly the
primary call followed by the fallback call. -/
theorem retry_once_with_fallback_witness :
    genOnlyVctk (primaryCall argsChild) = false ∧
    (generate_thread genOnlyVctk argsChild).attempts =
      [primaryCall argsChild, fallbackCall argsChild] :=
  ⟨by decide, (retry_once_with_fallback genOnlyVctk argsChild (by decide)).1⟩

/-- C8 (code evidence): on the stereo array `[[1, 3], [2, 4]]` (librosa
layout: 2 channels × 2 samples) the code's `np.mean(audio, axis=1)`
collapses the TIME axis, yielding one value per channel `[2, 3]`, which
differs from the per-sample-position channel means `[3/2, 7/2]` the spec
describes — the reduction averages along the wrong axis. -/
theorem mono_reduction_wrong_axis :
    ensureMono (.multi [[1, 3], [2, 4]]) = [2, 3] ∧
    channelMeanAt [[1, 3], [2, 4]] 0 = 3/2 ∧
    channelMeanAt [[1, 3], [2, 4]] 1 = 7/2 ∧
    ensureMono (.multi [[1, 3], [2, 4]]) ≠
      [channelMeanAt [[1, 3], [2, 4]] 0, channelMeanAt [[1, 3], [2, 4]] 1] := by
  have h1 : ensureMono (.multi [[1, 3], [2, 4]]) = [2, 3] := by
    unfold ensureMono meanAxis1 rowMean
    norm_num
  have h2 : channelMeanAt [[1, 3], [2, 4]] 0 = 3/2 := by
    unfold channelMeanAt
    norm_num
  have h3 : channelMeanAt [[1, 3], [2, 4]] 1 = 7/2 := by
    unfold channelMeanAt
    norm_num
  refine ⟨h1, h2, h3, ?_⟩
  rw [h1, h2, h3]
  intro hcon
  simp only [List.cons.injEq] at hcon
  norm_num at hcon

/-- A line that contributes nothing to the gender table: blank after
stripping, fewer than two comma-fields, or an empty id field. -/
def malformedGenderLine (l : String) : Bool :=
  let t := pyStrip l
  if t = "" then true
  else
    match pySplitComma t with
    | sid :: _ :: _ => decide (pyStrip sid = "")
    | _ => true

theorem processGenderLine_malformed (l : String) (h : malformedGenderLine l = true)
    (acc : List (String × String)) (i : ℕ) : processGenderLine acc i l = acc := by
  unfold processGenderLine
  by_cases h0 : pyStrip l = ""
  · simp [h0]
  · unfold malformedGenderLine at h
    simp only [h0, if_false, ite_false] at h
    rw [if_neg h0]
    by_cases hh : i = 0 ∧ pyStartsWith (pyLower (pyStrip l)) "id," = true
    · rw [if_pos hh]
    · rw [if_neg hh]
      cases hsp : pySplitComma (pyStrip l) with
      | nil => simp only [hsp]
      | cons sid rest =>
        cases rest with
        | nil => simp only [hsp]
        | cons g rest2 =>
          rw [hsp] at h
          simp only [hsp]
          have hsid : pyStrip sid = "" := of_decide_eq_true h
          simp [hsid]

theorem parseGenderLines_all_malformed (lines : List String) :
    ∀ (i : ℕ) (acc : List (String × String)),
      (∀ l ∈ lines, malformedGenderLine l = true) → parseGenderLines i acc lines = acc := by
  induction lines with
  | nil => intro i acc _; rfl
  | cons l ls ih =>
    intro i acc h
    unfold parseGenderLines
    rw [processGenderLine_malformed l (h l (by simp)) acc i]
    exact ih (i + 1) acc fun x hx => h x (by simp [hx])

/-- C9: the gender table loader skips a leading `id,...` header in any
casing (`"ID,Gender"` is skipped too), returns the empty table for a missing file and for a
file of only malformed records (and, being a total function, never
raises), stores ids upper-cased — so after normalization both `"P225"`
and `"p225"` look up to `"female"` in the two-line scenario file — and an
absent id yields the `"unknown"` sentinel. -/
theorem gender_table_behavior (lines : List String)
    (hmal : ∀ l ∈ lines, malformedGenderLine l = true) :
    load_speaker_genders none = [] ∧
    load_speaker_genders (some lines) = [] ∧
    load_speaker_genders (some ["id,gender", "P225,female"]) = [("P225", "female")] ∧
    load_speaker_genders (some ["ID,Gender", " p225 ,female"]) = [("P225", "female")] ∧
    speakerGenderOf (load_speaker_genders (some ["id,gender", "P225,female"]))
      "P225" = "female" ∧
    speakerGenderOf (load_speaker_genders (some ["id,gender", "P225,female"]))
      "p225" = "female" ∧
    speakerGenderOf (load_speaker_genders (some ["id,gender", "P225,female"]))
      "p000" = "unknown" :=
  ⟨rfl, parseGenderLines_all_malformed lines 0 [] hmal,
    by decide, by decide, by decide, by decide, by decide⟩

/-- Witness for C9 on a concrete all-malformed file (a blank line, a
line without a comma, a line with an empty id). -/
theorem gender_table_behavior_witness :
    (∀ l ∈ ["", "nocomma", " ,female"], malformedGenderLine l = true) ∧
    load_speaker_genders (some ["", "nocomma", " ,female"]) = [] :=
  ⟨by decide, (gender_table_behavior ["", "nocomma", " ,female"] (by decide)).2.1⟩

theorem runProfile_stretch_irrelevant (ps : ℤ → List ℚ → Option (List ℚ))
    (ts ts2 : ℚ → List ℚ → Option (List ℚ)) (cp : Bool) (p : Option ℤ) (m : Option ℚ)
    (g gs : ℚ) (sr : ℕ) (a : List ℚ)
    (hg : ∀ mult : ℚ, m = some mult →
      ∀ len : ℕ, ¬(sr < len ∧ 1/100 < ratAbs (mult * gs - 1) ∧ 0 < mult * gs)) :
    runProfile ⟨ps, ts⟩ cp p m g gs sr a = runProfile ⟨ps, ts2⟩ cp p m g gs sr a := by
  unfold runProfile
  cases p with
  | none =>
    dsimp only
    cases m with
    | none => rfl
    | some mult =>
      dsimp only
      rw [if_neg (hg mult rfl a.length), if_neg (hg mult rfl a.length)]
  | some n =>
    cases hps : ps n a with
    | none =>
      dsimp only
      rw [hps]
      cases cp with
      | false => rfl
      | true =>
        rw [if_pos rfl]
        dsimp only
        cases m with
        | none => rfl
        | some mult =>
          dsimp only
          rw [if_neg (hg mult rfl a.length), if_neg (hg mult rfl a.length)]
    | some b =>
      dsimp only
      rw [hps]
      dsimp only
      cases m with
      | none => rfl
      | some mult =>
        dsimp only
        rw [if_neg (hg mult rfl b.length), if_neg (hg mult rfl b.length)]

theorem runProfile_length_preserved (d : DSP) (cp : Bool) (p : Option ℤ) (m : Option ℚ)
    (g gs : ℚ) (sr : ℕ) (a : List ℚ) (hid : ∀ n x, d.pitchShift n x = some x)
    (hg : ∀ mult : ℚ, m = some mult →
      ∀ len : ℕ, ¬(sr < len ∧ 1/100 < ratAbs (mult * gs - 1) ∧ 0 < mult * gs)) :
    ∀ out, runProfile d cp p m g gs sr a = .ok out → out.length = a.length := by
  unfold runProfile
  cases p with
  | none =>
    dsimp only
    cases m with
    | none =>
      intro out h
      injection h with h
      rw [← h, List.length_map]
    | some mult =>
      dsimp only
      rw [if_neg (hg mult rfl a.length)]
      intro out h
      injection h with h
      rw [← h, List.length_map]
  | some n =>
    dsimp only
    rw [hid n a]
    dsimp only
    cases m with
    | none =>
      intro out h
      injection h with h
      rw [← h, List.length_map]
    | some mult =>
      dsimp only
      rw [if_neg (hg mult rfl a.length)]
      intro out h
      injection h with h
      rw [← h, List.length_map]

/-- C10: when `global_speed ≤ 0` the computed rate `mult × global_speed`
is never positive (every emotion multiplier is positive), so the
`rate > 0` conjunct blocks the stretch: the run result does not depend on
the `time_stretch` oracle at all, and with a length-preserving (identity)
pitch oracle every successful run keeps the input buffer length. -/
theorem nonpositive_speed_skips_stretch (ps : ℤ → List ℚ → Option (List ℚ))
    (ts ts2 : ℚ → List ℚ → Option (List ℚ)) (e : String) (gs : ℚ) (sr : ℕ)
    (a : List ℚ) (hgs : gs ≤ 0) :
    applyEmotionEffects ⟨ps, ts⟩ e gs sr a = applyEmotionEffects ⟨ps, ts2⟩ e gs sr a ∧
    ((∀ n x, ps n x = some x) →
      ∀ out, applyEmotionEffects ⟨ps, ts⟩ e gs sr a = .ok out →
        out.length = a.length) := by
  have hg : ∀ mult : ℚ, (emotionProfile (pyLower e)).2.1 = some mult →
      ∀ len : ℕ, ¬(sr < len ∧ 1/100 < ratAbs (mult * gs - 1) ∧ 0 < mult * gs) := by
    intro mult hm len hcon
    have hpos : 0 < mult := emotionProfile_stretch_pos (pyLower e) mult hm
    nlinarith [hcon.2.2]
  constructor
  · rw [applyEffects_eq_runProfile, applyEffects_eq_runProfile]
    exact runProfile_stretch_irrelevant ps ts ts2 _ _ _ _ gs sr a hg
  · intro hid out hout
    rw [applyEffects_eq_runProfile] at hout
    exact runProfile_length_preserved ⟨ps, ts⟩ _ _ _ _ gs sr a hid hg out hout

/-- Witness for C10 at `global_speed = -1` with two stretch oracles that
disagree everywhere. -/
theorem nonpositive_speed_skips_stretch_witness :
    (-1 : ℚ) ≤ 0 ∧
    applyEmotionEffects ⟨fun _ x => some x, fun _ a => some a⟩ "sad" (-1) 0 [1] =
      applyEmotionEffects ⟨fun _ x => some x, fun _ _ => some []⟩ "sad" (-1) 0 [1] :=
  ⟨by decide,
    (nonpositive_speed_skips_stretch (fun _ x => some x) (fun _ a => some a)
      (fun _ _ => some []) "sad" (-1) 0 [1] (by decide)).1⟩
